import Mathlib

/-!
Verification of the currency-converter engine (src/app2.py).

The engine is shallowly embedded as follows.

* An HTTP response is a status code together with an optional parsed JSON
  body; `body = none` models a response whose body fails to parse as JSON.
  A parsed body is an association list mapping a base-currency code to an
  association list of quote-currency codes and rates (rates are modelled
  as exact rationals).
* The network is a pure oracle `net : String → Response` mapping a request
  URL to the response the data source serves for it; theorems quantify over
  every oracle, so they cover every behaviour of the data source.
* `get_exchange_rate` embeds the function of the same name (lines 12-28):
  it requests the primary URL, requests the fallback URL only when the
  primary status is not 200, and then extracts `body[from][to]` from the
  response it ended up with — with no status check on the fallback.
  Key-lookup or parse failures yield `none` (the Python `except` path).
  The second component of the result records the URLs requested.
* `fetchDay` embeds the loop body of `get_historical_rates`
  (lines 41-53), which, unlike `get_exchange_rate`, does check that the
  finally-used response has status 200.
* `histLoop`/`get_historical_rates` embed the date loop of
  `get_historical_rates` (lines 32-55): the Python `range(days, 0, -1)`
  is embedded as `rangeDown days`, the date `days - k` days before today
  is the integer `today - (days - k)`, and `dstr : Int → String` stands
  for the `%Y-%m-%d` rendering of a day used inside the request URLs.
  The `requests` field records, for each attempted day, the list of URLs
  requested for it.
* `chartMetrics` embeds the numeric derivations of
  `create_currency_chart` (lines 143-145, 184-185, 249-252): per-point
  percent change against the first rate, padded min/max range bounds,
  overall change and the direction arrow.  On an empty rate list the
  first-point access `iloc[0]` raises; this is the `indexError` result.
* `derive_metrics` embeds the guarded derivation in `main`
  (lines 399-412): the chart is only computed when both the dates and the
  rates lists are non-empty (Python truthiness of `if dates and rates:`),
  otherwise the distinct insufficient-data condition is reported.
-/

structure Response where
  status : Nat
  body : Option (List (String × List (String × ℚ)))

/-- The `.lower()` normalization of the source: each character mapped to its
lowercase form. -/
def strLower (s : String) : String := ⟨s.data.map Char.toLower⟩

def latestPrimaryUrl (f : String) : String :=
  "https://cdn.jsdelivr.net/npm/@fawazahmed0/currency-api@latest/v1/currencies/" ++
    strLower f ++ ".json"

def latestFallbackUrl (f : String) : String :=
  "https://latest.currency-api.pages.dev/v1/currencies/" ++ strLower f ++ ".json"

def histPrimaryUrl (d f : String) : String :=
  "https://cdn.jsdelivr.net/npm/@fawazahmed0/currency-api@" ++ d ++
    "/v1/currencies/" ++ strLower f ++ ".json"

def histFallbackUrl (d f : String) : String :=
  "https://" ++ d ++ ".currency-api.pages.dev/v1/currencies/" ++ strLower f ++ ".json"

/-- Extraction of `data[from_currency.lower()][to_currency.lower()]` from a
parsed body; `none` models the exception path (malformed body or missing key). -/
def extractRate (body : Option (List (String × List (String × ℚ))))
    (f t : String) : Option ℚ :=
  (body.bind fun b => b.lookup (strLower f)).bind fun m => m.lookup (strLower t)

/-- Lines 12-28 of src/app2.py.  Returns the extracted rate (or `none`) and
the list of URLs requested. -/
def get_exchange_rate (net : String → Response) (f t : String) :
    Option ℚ × List String :=
  if (net (latestPrimaryUrl f)).status = 200 then
    (extractRate (net (latestPrimaryUrl f)).body f t, [latestPrimaryUrl f])
  else
    (extractRate (net (latestFallbackUrl f)).body f t,
      [latestPrimaryUrl f, latestFallbackUrl f])

/-- The loop body of `get_historical_rates` (lines 41-53 of src/app2.py) for
one date string: primary request, fallback request only on a non-200 primary
status, then a status-200 check on the response in hand before extraction. -/
def fetchDay (net : String → Response) (f t dateS : String) :
    Option ℚ × List String :=
  if (net (histPrimaryUrl dateS f)).status = 200 then
    (extractRate (net (histPrimaryUrl dateS f)).body f t, [histPrimaryUrl dateS f])
  else
    (if (net (histFallbackUrl dateS f)).status = 200 then
        extractRate (net (histFallbackUrl dateS f)).body f t
      else none,
      [histPrimaryUrl dateS f, histFallbackUrl dateS f])

/-- The iteration sequence of `range(days, 0, -1)`: its `k`-th element is
`days - k`, i.e. the list `[days, days - 1, ..., 1]`. -/
def rangeDown (days : Nat) : List Nat := (List.range days).map (fun k => days - k)

/-- Result of `get_historical_rates`: the parallel `dates` and `rates` lists
of the source, plus the per-day lists of requested URLs (ghost
instrumentation used to count network traffic). -/
structure HistResult where
  dates : List Int
  rates : List ℚ
  requests : List (List String)

def histLoop (net : String → Response) (dstr : Int → String) (today : Int)
    (f t : String) : List Nat → HistResult
  | [] => ⟨[], [], []⟩
  | i :: is =>
    match (fetchDay net f t (dstr (today - (i : Int)))).1 with
    | some r =>
      ⟨(today - (i : Int)) :: (histLoop net dstr today f t is).dates,
        r :: (histLoop net dstr today f t is).rates,
        (fetchDay net f t (dstr (today - (i : Int)))).2 ::
          (histLoop net dstr today f t is).requests⟩
    | none =>
      ⟨(histLoop net dstr today f t is).dates,
        (histLoop net dstr today f t is).rates,
        (fetchDay net f t (dstr (today - (i : Int)))).2 ::
          (histLoop net dstr today f t is).requests⟩

/-- Lines 32-55 of src/app2.py: iterate `i` over `range(days, 0, -1)`, fetch
the day `today - i`, and append the date and rate exactly when the fetch
produced a value. -/
def get_historical_rates (net : String → Response) (dstr : Int → String)
    (today : Int) (f t : String) (days : Nat) : HistResult :=
  histLoop net dstr today f t (rangeDown days)

/-- The quantities `create_currency_chart` derives from the rate list. -/
structure Metrics where
  percent_change : List ℚ
  range_bounds : ℚ × ℚ
  overall_change_pct : ℚ
  direction : String

/-- The failure of `create_currency_chart` on an empty frame: `iloc[0]`
raises an index error. -/
inductive ChartErr where
  | indexError

/-- The numeric core of `create_currency_chart` (lines 143-145, 184-185 and
249-252 of src/app2.py). -/
def chartMetrics : List ℚ → Except ChartErr Metrics
  | [] => .error .indexError
  | r0 :: rs =>
    .ok
      { percent_change := (r0 :: rs).map (fun r => (r - r0) / r0 * 100)
        range_bounds :=
          ((rs.foldl min r0) * (998 / 1000), (rs.foldl max r0) * (1002 / 1000))
        overall_change_pct := (rs.getLastD r0 - r0) / r0 * 100
        direction := if (rs.getLastD r0 - r0) / r0 * 100 > 0 then "↑" else "↓" }

/-- Outcomes of the metric-derivation pipeline of `main`: the distinct
insufficient-data condition of line 412, or the uncaught index error that
line 144 would raise. -/
inductive DeriveErr where
  | insufficientData
  | indexError

/-- Lines 399-412 of src/app2.py: the chart derivation runs only when both
the dates and the rates lists are non-empty; otherwise the distinct
insufficient-data message is shown. -/
def derive_metrics (dates : List Int) (rates : List ℚ) : Except DeriveErr Metrics :=
  if dates.isEmpty || rates.isEmpty then .error .insufficientData
  else
    match chartMetrics rates with
    | .ok m => .ok m
    | .error _ => .error DeriveErr.indexError

/-- A data source on which every request succeeds with a body carrying the
rate 2 for the pair eur/usd. -/
def wNet : String → Response := fun _ => ⟨200, some [("eur", [("usd", 2)])]⟩

/-- A data source on which every request fails with status 500 and an
unparseable body. -/
def failNet : String → Response := fun _ => ⟨500, none⟩

/-- A data source on which every request returns status 500, but the
fallback URL of the latest eur fetch carries a well-formed body with the
rate 2 for eur/usd. -/
def cexNet : String → Response := fun u =>
  if u = latestFallbackUrl "EUR" then ⟨500, some [("eur", [("usd", 2)])]⟩
  else ⟨500, none⟩

/-- A data source serving a well-formed body whose eur/usd entry is the
negative rate -1. -/
def negNet : String → Response := fun _ => ⟨200, some [("eur", [("usd", -1)])]⟩

/-- Every rate appearing in the (parsed) body of a response is positive. -/
def bodyAllPos (r : Response) : Bool :=
  r.body.all fun b => b.all fun p => p.2.all fun q => decide (0 < q.2)

/-- C1: on the empty series the metric derivation fails with the distinct
insufficient-data condition, and on no input whatsoever does the derivation
surface the raw index error of the unguarded first-point access: every
outcome is either the insufficient-data condition or a successful metrics
value. -/
theorem C1_empty_series_insufficient_data :
    derive_metrics [] [] = .error DeriveErr.insufficientData ∧
    ∀ (ds : List Int) (rs : List ℚ),
      derive_metrics ds rs = .error DeriveErr.insufficientData ∨
      ∃ m, derive_metrics ds rs = .ok m := by
  refine ⟨rfl, fun ds rs => ?_⟩
  cases ds with
  | nil => exact Or.inl rfl
  | cons d ds =>
    cases rs with
    | nil => exact Or.inl rfl
    | cons r rs => exact Or.inr ⟨_, rfl⟩

/-- C4: percent changes are taken against the first point of the series (not
the previous point), the overall change compares the last point to the
first, and on the concrete series `[1, 1.1, 0.99]` the derivation yields
percent changes `[0, 10, -1]`, overall change `-1`, direction down. -/
theorem C4_percent_change_from_first_point :
    (∀ (r0 : ℚ) (rs : List ℚ),
      ∃ m, chartMetrics (r0 :: rs) = .ok m ∧
        m.percent_change = (r0 :: rs).map (fun r => (r - r0) / r0 * 100) ∧
        m.overall_change_pct = (rs.getLastD r0 - r0) / r0 * 100) ∧
    ∃ m, derive_metrics [0, 1, 2] [1, 11 / 10, 99 / 100] = .ok m ∧
      m.percent_change = [0, 10, -1] ∧
      m.overall_change_pct = -1 ∧
      m.direction = "↓" := by
  refine ⟨fun r0 rs => ⟨_, rfl, rfl, rfl⟩, ⟨_, rfl, ?_, ?_, ?_⟩⟩ <;>
    norm_num [List.getLastD]

/-- C6: the derived direction is the up arrow exactly when the overall
change is strictly positive, so an overall change of exactly zero (here the
two-point constant series `[1, 1]`) is rendered with the down arrow. -/
theorem C6_direction_strictly_positive :
    (∀ (r0 : ℚ) (rs : List ℚ),
      ∃ m, chartMetrics (r0 :: rs) = .ok m ∧
        m.direction = if 0 < m.overall_change_pct then "↑" else "↓") ∧
    ∃ m, chartMetrics [1, 1] = .ok m ∧
      m.overall_change_pct = 0 ∧ m.direction = "↓" := by
  refine ⟨fun r0 rs => ⟨_, rfl, rfl⟩, ⟨_, rfl, ?_, ?_⟩⟩ <;>
    norm_num [List.getLastD]

/-- C7: a single-point series derives without failure: percent change `[0]`,
overall change `0`, and range bounds `(r * 0.998, r * 1.002)`; for the rate
`2.5` the bounds are `(2.495, 2.505)`. -/
theorem C7_single_point_series :
    (∀ (d : Int) (r : ℚ),
      ∃ m, derive_metrics [d] [r] = .ok m ∧
        m.percent_change = [0] ∧
        m.overall_change_pct = 0 ∧
        m.range_bounds = (r * (998 / 1000), r * (1002 / 1000))) ∧
    ∃ m, derive_metrics [0] [5 / 2] = .ok m ∧
      m.percent_change = [0] ∧
      m.overall_change_pct = 0 ∧
      m.range_bounds = (499 / 200, 501 / 200) := by
  constructor
  · intro d r
    refine ⟨_, rfl, ?_, ?_, rfl⟩
    · show [(r - r) / r * 100] = [0]
      simp
    · show (r - r) / r * 100 = 0
      simp
  · refine ⟨_, rfl, ?_, ?_, ?_⟩ <;> norm_num [List.getLastD]

/-- A successful association-list lookup returns the value of some entry of
the list. -/
lemma lookup_mem {β : Type} (k : String) (v : β) :
    ∀ l : List (String × β), l.lookup k = some v → ∃ p, p ∈ l ∧ p.2 = v := by
  intro l
  induction l with
  | nil => intro h; simp [List.lookup] at h
  | cons a as ih =>
    intro h
    rw [show a = (a.1, a.2) from rfl, List.lookup_cons] at h
    split at h
    · exact ⟨a, by simp, Option.some.inj h⟩
    · obtain ⟨p, hp, hv⟩ := ih h
      exact ⟨p, by simp [hp], hv⟩

/-- A rate extracted from a response all of whose body rates are positive is
positive. -/
lemma extractRate_pos (resp : Response) (f t : String) (r : ℚ)
    (hall : bodyAllPos resp = true) (h : extractRate resp.body f t = some r) :
    0 < r := by
  unfold extractRate at h
  obtain ⟨m, hm, hr⟩ := Option.bind_eq_some.mp h
  obtain ⟨b, hb, hbm⟩ := Option.bind_eq_some.mp hm
  obtain ⟨p, hpmem, hp2⟩ := lookup_mem _ _ _ hbm
  subst hp2
  obtain ⟨q, hqmem, hq2⟩ := lookup_mem _ _ _ hr
  subst hq2
  unfold bodyAllPos at hall
  rw [hb] at hall
  simp only [Option.all, List.all_eq_true, decide_eq_true_eq] at hall
  exact hall p hpmem q hqmem

/-- C5: when the primary endpoint answers with status 200 and a parsed body
containing a value for the pair, both fetchers return exactly that value
(pure pass-through) after a single request to the primary URL. -/
theorem C5_primary_success_passthrough (net : String → Response) (f t d : String)
    (b b2 : List (String × List (String × ℚ))) (mq mq2 : List (String × ℚ))
    (r r2 : ℚ)
    (h1 : net (latestPrimaryUrl f) = ⟨200, some b⟩)
    (h2 : net (histPrimaryUrl d f) = ⟨200, some b2⟩)
    (h3 : b.lookup (strLower f) = some mq)
    (h4 : mq.lookup (strLower t) = some r)
    (h5 : b2.lookup (strLower f) = some mq2)
    (h6 : mq2.lookup (strLower t) = some r2) :
    get_exchange_rate net f t = (some r, [latestPrimaryUrl f]) ∧
    fetchDay net f t d = (some r2, [histPrimaryUrl d f]) := by
  unfold get_exchange_rate fetchDay
  rw [h1, h2]
  simp [extractRate, h3, h4, h5, h6]

/-- Witness for C5 at a concrete data source. -/
theorem C5_primary_success_passthrough_witness :
    get_exchange_rate wNet "EUR" "USD" = (some 2, [latestPrimaryUrl "EUR"]) ∧
    fetchDay wNet "EUR" "USD" "2024-01-01" =
      (some 2, [histPrimaryUrl "2024-01-01" "EUR"]) :=
  C5_primary_success_passthrough wNet "EUR" "USD" "2024-01-01"
    [("eur", [("usd", 2)])] [("eur", [("usd", 2)])] [("usd", 2)] [("usd", 2)]
    2 2 rfl rfl rfl rfl rfl rfl

/-- C2 counterexample: a call of `get_exchange_rate` on which both endpoints
return a non-200 status is claimed to return an absent result, but when the
body of the fallback (never status-checked) parses and carries the pair, the code returns
that value. -/
theorem C2_counterexample :
    ((cexNet (latestPrimaryUrl "EUR")).status == 200) = false ∧
    ((cexNet (latestFallbackUrl "EUR")).status == 200) = false ∧
    (get_exchange_rate cexNet "EUR" "USD").1 = some 2 := by
  refine ⟨rfl, rfl, rfl⟩

/-- C2 amended: with a failing primary, `get_exchange_rate` returns exactly
the extraction from the fallback body (absent when that body is malformed
or misses the base/quote keys, even though the fallback status is never
checked), and the per-day historical fetch with two non-200 statuses skips
the day; in both cases exactly the two URLs are requested and nothing
more. -/
theorem C2_both_endpoints_fail (net : String → Response) (f t d : String)
    (hp : ((net (latestPrimaryUrl f)).status == 200) = false)
    (h1 : ((net (histPrimaryUrl d f)).status == 200) = false)
    (h2 : ((net (histFallbackUrl d f)).status == 200) = false) :
    get_exchange_rate net f t =
      (extractRate (net (latestFallbackUrl f)).body f t,
        [latestPrimaryUrl f, latestFallbackUrl f]) ∧
    fetchDay net f t d = (none, [histPrimaryUrl d f, histFallbackUrl d f]) := by
  have hp' : ¬ (net (latestPrimaryUrl f)).status = 200 := by simpa using hp
  have h1' : ¬ (net (histPrimaryUrl d f)).status = 200 := by simpa using h1
  have h2' : ¬ (net (histFallbackUrl d f)).status = 200 := by simpa using h2
  constructor
  · unfold get_exchange_rate
    rw [if_neg hp']
  · unfold fetchDay
    rw [if_neg h1', if_neg h2']

/-- Witness for the amended C2 at a concrete data source whose every
response has status 500 and an unparseable body. -/
theorem C2_both_endpoints_fail_witness :
    get_exchange_rate failNet "EUR" "USD" =
      (none, [latestPrimaryUrl "EUR", latestFallbackUrl "EUR"]) ∧
    fetchDay failNet "EUR" "USD" "2024-01-01" =
      (none, [histPrimaryUrl "2024-01-01" "EUR", histFallbackUrl "2024-01-01" "EUR"]) :=
  C2_both_endpoints_fail failNet "EUR" "USD" "2024-01-01" rfl rfl rfl

/-- C8 counterexample: the fetcher performs no positivity validation: a
body entry with the non-positive rate -1 is extracted and returned as is,
so the produced point violates the claimed invariant rate > 0. -/
theorem C8_counterexample :
    (get_exchange_rate negNet "EUR" "USD").1 = some (-1) ∧ (-1 : ℚ) < 0 := by
  constructor
  · rfl
  · norm_num

/-- C8 amended: the fetchers pass the extracted body value through without
any validation, so every produced rate is positive exactly when the data
source serves only positive rates: under that assumption on every response
body, any rate returned by either fetcher is positive. -/
theorem C8_positive_iff_source_positive (net : String → Response) (f t d : String)
    (hall : ∀ u, bodyAllPos (net u) = true) :
    (∀ r, (get_exchange_rate net f t).1 = some r → 0 < r) ∧
    (∀ r, (fetchDay net f t d).1 = some r → 0 < r) := by
  constructor
  · intro r h
    unfold get_exchange_rate at h
    split at h
    · exact extractRate_pos _ _ _ _ (hall _) h
    · exact extractRate_pos _ _ _ _ (hall _) h
  · intro r h
    unfold fetchDay at h
    split at h
    · exact extractRate_pos _ _ _ _ (hall _) h
    · dsimp only at h
      split at h
      · exact extractRate_pos _ _ _ _ (hall _) h
      · simp at h

/-- Witness for the amended C8 at a concrete positive data source. -/
theorem C8_positive_iff_source_positive_witness :
    (get_exchange_rate wNet "EUR" "USD").1 = some 2 ∧ (0 : ℚ) < 2 :=
  ⟨rfl,
    (C8_positive_iff_source_positive wNet "EUR" "USD" "2024-01-01"
      (fun _ => rfl)).1 2 rfl⟩

/-- C9 counterexample: the fallback URL does not differ from the primary URL
only in the host.  For the fetch of eur on 2024-01-01 the primary URL is the
host cdn.jsdelivr.net followed by the path
/npm/@fawazahmed0/currency-api@2024-01-01/v1/currencies/eur.json, yet no
choice of replacement host can turn that path into the fallback URL: the
fallback URL has 64 characters while scheme plus any host plus that path has
at least 72. -/
theorem C9_counterexample :
    histPrimaryUrl "2024-01-01" "EUR" =
      "https://" ++ "cdn.jsdelivr.net" ++
        "/npm/@fawazahmed0/currency-api@2024-01-01/v1/currencies/eur.json" ∧
    (histFallbackUrl "2024-01-01" "EUR").length = 64 ∧
    ∀ h : String,
      64 < ("https://" ++ h ++
          "/npm/@fawazahmed0/currency-api@2024-01-01/v1/currencies/eur.json").length := by
  refine ⟨rfl, rfl, fun h => ?_⟩
  rw [String.length_append, String.length_append]
  have e1 : ("https://").length = 8 := rfl
  have e2 :
      ("/npm/@fawazahmed0/currency-api@2024-01-01/v1/currencies/eur.json").length
        = 64 := rfl
  omega

/-- C9 amended: for every date-or-version tag and base currency, the primary
and fallback URLs share the identical trailing path
/v1/currencies/{base}.json, but the part before it differs in more than the
host: the primary embeds the tag in its npm package path on
cdn.jsdelivr.net, while the fallback embeds the tag in its hostname; the
two leading parts even have different lengths. -/
theorem C9_fallback_url_structure (d b : String) :
    histPrimaryUrl d b =
      ("https://cdn.jsdelivr.net/npm/@fawazahmed0/currency-api@" ++ d) ++
        ("/v1/currencies/" ++ (strLower b ++ ".json")) ∧
    histFallbackUrl d b =
      ("https://" ++ (d ++ ".currency-api.pages.dev")) ++
        ("/v1/currencies/" ++ (strLower b ++ ".json")) ∧
    ("https://" ++ (d ++ ".currency-api.pages.dev")).length <
      ("https://cdn.jsdelivr.net/npm/@fawazahmed0/currency-api@" ++ d).length := by
  refine ⟨?_, ?_, ?_⟩
  · simp [histPrimaryUrl, String.append_assoc]
  · apply String.ext
    have lit : (".currency-api.pages.dev/v1/currencies/").data =
        (".currency-api.pages.dev").data ++ ("/v1/currencies/").data := rfl
    simp [histFallbackUrl, String.data_append, lit, List.append_assoc]
  · have e1 : ("https://").length = 8 := rfl
    have e2 : (".currency-api.pages.dev").length = 23 := rfl
    have e3 :
        ("https://cdn.jsdelivr.net/npm/@fawazahmed0/currency-api@").length = 55 :=
      rfl
    simp only [String.length_append, e1, e2, e3]
    omega

/-- The dates the series builder returns form a sublist (in order) of the
iterated window of dates. -/
lemma histLoop_dates_sublist (net : String → Response) (dstr : Int → String)
    (today : Int) (f t : String) :
    ∀ is : List Nat,
      List.Sublist (histLoop net dstr today f t is).dates
        (is.map fun i : Nat => today - (i : Int)) := by
  intro is
  induction is with
  | nil => simp [histLoop]
  | cons i is ih =>
    cases h : (fetchDay net f t (dstr (today - (i : Int)))).1 with
    | none =>
      simp only [histLoop, h, List.map_cons]
      exact List.Sublist.cons _ ih
    | some r =>
      simp only [histLoop, h, List.map_cons]
      exact List.Sublist.cons₂ _ ih

/-- The series builder appends a rate exactly when it appends a date. -/
lemma histLoop_rates_length (net : String → Response) (dstr : Int → String)
    (today : Int) (f t : String) :
    ∀ is : List Nat,
      (histLoop net dstr today f t is).rates.length =
        (histLoop net dstr today f t is).dates.length := by
  intro is
  induction is with
  | nil => simp [histLoop]
  | cons i is ih =>
    cases h : (fetchDay net f t (dstr (today - (i : Int)))).1 with
    | none => simp only [histLoop, h]; exact ih
    | some r => simp only [histLoop, h, List.length_cons]; omega

/-- One per-day request group is recorded for every iterated day. -/
lemma histLoop_requests_length (net : String → Response) (dstr : Int → String)
    (today : Int) (f t : String) :
    ∀ is : List Nat,
      (histLoop net dstr today f t is).requests.length = is.length := by
  intro is
  induction is with
  | nil => simp [histLoop]
  | cons i is ih =>
    cases h : (fetchDay net f t (dstr (today - (i : Int)))).1 with
    | none => simp only [histLoop, h, List.length_cons]; omega
    | some r => simp only [histLoop, h, List.length_cons]; omega

/-- The fetch of a single day requests either one URL (primary succeeded) or two
(primary plus fallback). -/
lemma fetchDay_requests_size (net : String → Response) (f t dateS : String) :
    ((fetchDay net f t dateS).2.length == 1 ||
      (fetchDay net f t dateS).2.length == 2) = true := by
  unfold fetchDay
  split <;> rfl

/-- Every per-day request group has one or two URLs. -/
lemma histLoop_requests_sizes (net : String → Response) (dstr : Int → String)
    (today : Int) (f t : String) :
    ∀ is : List Nat,
      ((histLoop net dstr today f t is).requests.all
        fun g => g.length == 1 || g.length == 2) = true := by
  intro is
  induction is with
  | nil => simp [histLoop]
  | cons i is ih =>
    cases h : (fetchDay net f t (dstr (today - (i : Int)))).1 with
    | none =>
      simp only [histLoop, h, List.all_cons, Bool.and_eq_true]
      exact ⟨fetchDay_requests_size net f t _, ih⟩
    | some r =>
      simp only [histLoop, h, List.all_cons, Bool.and_eq_true]
      exact ⟨fetchDay_requests_size net f t _, ih⟩

/-- Every returned rate is exactly the rate fetched for the date it is
paired with. -/
lemma histLoop_pairing (net : String → Response) (dstr : Int → String)
    (today : Int) (f t : String) :
    ∀ is : List Nat,
      List.Forall₂ (fun dd r => (fetchDay net f t (dstr dd)).1 = some r)
        (histLoop net dstr today f t is).dates
        (histLoop net dstr today f t is).rates := by
  intro is
  induction is with
  | nil => simp [histLoop]
  | cons i is ih =>
    cases h : (fetchDay net f t (dstr (today - (i : Int)))).1 with
    | none => simp only [histLoop, h]; exact ih
    | some r =>
      simp only [histLoop, h]
      exact List.Forall₂.cons h ih

/-- The iterated window, oldest to newest: `today - days, ..., today - 1`. -/
lemma rangeDown_map_eq (today : Int) (days : Nat) :
    ((rangeDown days).map fun i : Nat => today - (i : Int)) =
      (List.range days).map fun k : Nat => today - days + k := by
  unfold rangeDown
  rw [List.map_map]
  apply List.map_congr_left
  intro k hk
  have hk' := List.mem_range.mp hk
  show today - ((days - k : Nat) : Int) = today - days + k
  omega

/-- The iterated window is strictly increasing. -/
lemma window_pairwise (today : Int) (days : Nat) :
    ((List.range days).map fun k : Nat => today - days + k).Pairwise (· < ·) := by
  rw [List.pairwise_map]
  exact List.Pairwise.imp (fun hab => by omega) (List.pairwise_lt_range days)

/-- C3: over a window of N days the series builder iterates the calendar
dates from N days ago up to but not including today, oldest to newest (the
returned dates form an in-order sublist of that window, hence are strictly
increasing with no duplicates and no entries outside the window), returns at
most N points with exactly as many rates as dates (no placeholders), and
makes exactly N fetch attempts, each requesting one or two URLs. -/
theorem C3_series_window (net : String → Response) (dstr : Int → String)
    (today : Int) (f t : String) (days : Nat) :
    List.Sublist (get_historical_rates net dstr today f t days).dates
        ((List.range days).map fun k : Nat => today - days + k) ∧
    (get_historical_rates net dstr today f t days).dates.Pairwise (· < ·) ∧
    (get_historical_rates net dstr today f t days).dates.length ≤ days ∧
    (get_historical_rates net dstr today f t days).rates.length =
      (get_historical_rates net dstr today f t days).dates.length ∧
    (get_historical_rates net dstr today f t days).requests.length = days ∧
    ((get_historical_rates net dstr today f t days).requests.all
        fun g => g.length == 1 || g.length == 2) = true := by
  have hsub := histLoop_dates_sublist net dstr today f t (rangeDown days)
  rw [rangeDown_map_eq] at hsub
  refine ⟨hsub, (window_pairwise today days).sublist hsub, ?_, ?_, ?_, ?_⟩
  · have h1 := hsub.length_le
    simp only [List.length_map, List.length_range] at h1
    exact h1
  · exact histLoop_rates_length net dstr today f t (rangeDown days)
  · have h2 := histLoop_requests_length net dstr today f t (rangeDown days)
    simpa [rangeDown] using h2
  · exact histLoop_requests_sizes net dstr today f t (rangeDown days)

/-- C10: the two returned lists always have equal length, and pointwise the
i-th rate is exactly the rate fetched for the i-th date: a date and its rate
are only ever appended together. -/
theorem C10_dates_rates_paired (net : String → Response) (dstr : Int → String)
    (today : Int) (f t : String) (days : Nat) :
    (get_historical_rates net dstr today f t days).rates.length =
      (get_historical_rates net dstr today f t days).dates.length ∧
    List.Forall₂ (fun dd r => (fetchDay net f t (dstr dd)).1 = some r)
      (get_historical_rates net dstr today f t days).dates
      (get_historical_rates net dstr today f t days).rates :=
  ⟨histLoop_rates_length net dstr today f t (rangeDown days),
    histLoop_pairing net dstr today f t (rangeDown days)⟩
